import Mathlib

/-!
Verification of the Arthya income-forecasting pipeline (`src/ml`).

This file gives a shallow embedding, over exact rationals, of the parts of
the pipeline that the specification's claims are about:

* the standardization transform and its inverse
  (`featureExtraction.py: extract_features`, `inference.py: income_from_standardized`);
* the two chronological splits
  (`inference.py: time_series_split` and the `max(1, int(n * train_frac))`
  split shared by `train_prophet` / `retrain_prophet` / `main.py:_train_prophet`);
* the regressor selection (`fit_prophet`, `infer_prophet`, `get_feature_pipeline`);
* the train/validation metric computation of `main.py:_train_prophet` and the
  shape of the `/train` endpoint response;
* the per-user artifact save/load paths (`train_prophet`, `retrain_prophet`);
* the batch-training loop (`training.py: batch_train_models`).

Real (IEEE double) arithmetic is idealized as exact rational arithmetic; a
division whose divisor is zero — which in NumPy/pandas produces a non-finite
float (inf or NaN) rather than raising — is modelled as `none`.  A square
root (`np.sqrt` in the RMSE computations, the standard deviation inside
`std(ddof=0)`) is irrational in general, so the embedding carries the
radicand: an RMSE field stores the mean squared error whose square root the
code reports, and a standard deviation `sigma` is passed explicitly,
characterized by `sigma ^ 2 = popVar`.  Neither convention affects any claim:
`sqrt` is injective and strictly monotone on the non-negative rationals and
is zero exactly on zero.
-/

namespace Arthya

/-- Float division as NumPy/pandas perform it: a zero divisor does not raise,
it produces a non-finite value (`inf`/`NaN`), modelled here as `none`. -/
def pythonDiv (a b : ℚ) : Option ℚ :=
  if b = 0 then none else some (a / b)

/-- Python's `round` to an integer (also NumPy's `np.round`): round half to
even (banker's rounding). -/
def roundHalfEven (q : ℚ) : ℤ :=
  if q - ⌊q⌋ < 1 / 2 then ⌊q⌋
  else if 1 / 2 < q - ⌊q⌋ then ⌊q⌋ + 1
  else if ⌊q⌋ % 2 = 0 then ⌊q⌋ else ⌊q⌋ + 1

/-- Python's `round(v, -1)`: round to the nearest multiple of ten,
ties to the even multiple. -/
def pyRound10 (v : ℚ) : ℚ :=
  10 * (roundHalfEven (v / 10) : ℚ)

/-- Python's `round(v, 4)` as used by `main.py: train_endpoint`. -/
def round4 (v : ℚ) : ℚ :=
  (roundHalfEven (v * 10000) : ℚ) / 10000

/-- Python's `int(...)` on a float: truncation toward zero. -/
def pyInt (q : ℚ) : ℤ :=
  if q < 0 then ⌈q⌉ else ⌊q⌋

/-- `Series.mean()`. (pandas returns NaN on an empty series; every use below
is on a non-empty list.) -/
def mean (xs : List ℚ) : ℚ :=
  xs.sum / (xs.length : ℚ)

/-- The population variance of a column: `Series.std(ddof=0)` is the square
root of this quantity, so the standard deviation is zero exactly when
`popVar` is zero. -/
def popVar (xs : List ℚ) : ℚ :=
  (xs.map (fun x => (x - mean xs) ^ 2)).sum / (xs.length : ℚ)

/-- The standardization applied at `featureExtraction.py:22` and at
`inference.py:223` / `main.py:114`: `y = (income - mu) / sigma`. -/
def standardize (x mu sigma : ℚ) : Option ℚ :=
  pythonDiv (x - mu) sigma

/-- `featureExtraction.py:20-22` (`extract_features`): `mu` is the mean of the
`Income_Total` column, `sigma` its population standard deviation (so
`sigma ^ 2 = popVar incomes`; the square root is passed explicitly because it
is irrational in general), and `y = (x - mu) / sigma` with **no**
zero-`sigma` guard. -/
def extract_features_y (incomes : List ℚ) (sigma : ℚ) (x : ℚ) : Option ℚ :=
  standardize x (mean incomes) sigma

/-- The guard `float(feats[...].std(ddof=0)) or 1.0` used at
`inference.py:219`, `inference.py:110` and `main.py:110`: a Python `or`
on a float replaces `0.0` by the right operand. -/
def pyOrFloat (s : ℚ) : ℚ :=
  if s = 0 then 1 else s

/-- `inference.py:169-173` (`income_from_standardized`): map a standardized
prediction back to income space, `round(pred_y * sigma + mu, -1)`. -/
def income_from_standardized (pred_y mu sigma : ℚ) : ℚ :=
  pyRound10 (pred_y * sigma + mu)

/-- One feature row after feature extraction: its timestamp `ds` and its
standardized target `y`.  The further covariate columns play no role in the
claims about splitting and metrics, so they are not carried. -/
structure Row where
  ds : ℚ
  y : ℚ
deriving DecidableEq

/-- `inference.py:46-51` (`time_series_split`): `split_idx = int(n * (1 -
test_size))`; the first `split_idx` rows are the train partition, the rest
the test partition. -/
def time_series_split {α : Type} (df : List α) (test_size : ℚ) : List α × List α :=
  (df.take ((pyInt ((df.length : ℚ) * (1 - test_size))).toNat),
   df.drop ((pyInt ((df.length : ℚ) * (1 - test_size))).toNat))

/-- The train/validation split shared verbatim by `inference.py:225-227`
(`train_prophet`), `inference.py:116-118` (`retrain_prophet`) and
`main.py:116-118` (`_train_prophet`):
`split_idx = max(1, int(len(feats) * train_frac))`;
`val_df = feats.iloc[split_idx:] if split_idx < len(feats) else None`. -/
def train_val_split {α : Type} (rows : List α) (train_frac : ℚ) :
    List α × Option (List α) :=
  (rows.take ((max 1 (pyInt ((rows.length : ℚ) * train_frac))).toNat),
   if (max 1 (pyInt ((rows.length : ℚ) * train_frac))).toNat < rows.length then
     some (rows.drop ((max 1 (pyInt ((rows.length : ℚ) * train_frac))).toNat))
   else none)

/-- Three feature rows, sorted by `ds`, used as a concrete split input. -/
def rows3 : List Row :=
  [⟨1, 0⟩, ⟨2, 0⟩, ⟨3, 0⟩]

/-- `inference.py:242` (`train_prophet`): the artifact written after a fit
goes to `../models/artifacts/modelUser_{userId}.json`. -/
def model_save_path (userId : Nat) : String :=
  "../models/artifacts/modelUser_" ++ toString userId ++ ".json"

/-- `inference.py:100` (`retrain_prophet`): the artifact read when loading a
user's model is `../models/artifacts/model_user_{userId}.json`. -/
def retrain_model_path (userId : Nat) : String :=
  "../models/artifacts/model_user_" ++ toString userId ++ ".json"

/-- The filesystem as a path-to-contents association list; a fresh write
shadows an older one. -/
def FileStore : Type := List (String × String)

/-- `open(path, "w")` followed by a write. -/
def fileWrite (st : FileStore) (path contents : String) : FileStore :=
  (path, contents) :: st

/-- `open(path, "r")`: Python raises the builtin `FileNotFoundError` when no
file exists at the path (no `ArtifactNotFoundError` class exists anywhere in
the repository). -/
def fileRead (st : FileStore) (path : String) : Except String String :=
  match (st : List (String × String)).lookup path with
  | some contents => Except.ok contents
  | none => Except.error "FileNotFoundError"

/-- `inference.py:242-243`: `train_prophet` serializes the fitted model and
writes it to `model_save_path userId`. -/
def train_prophet_save (st : FileStore) (userId : Nat) (serialized : String) :
    FileStore :=
  fileWrite st (model_save_path userId) serialized

/-- `inference.py:100-101`: `retrain_prophet` loads the persisted model for
`userId` by reading `retrain_model_path userId`. -/
def retrain_prophet_load (st : FileStore) (userId : Nat) : Except String String :=
  fileRead st (retrain_model_path userId)

/-- `training.py:204-222` (`batch_train_models`): the loop body calls
`train_model` for each `(user_id, csv_path)` pair with no exception handling,
and `train_model` re-raises every error (`training.py:160-163`), so an
exception propagates out of the loop and the results collected so far are
discarded.  The per-user trainer is abstracted as `train_one`, returning
either a run record or a raised exception. -/
def batch_train_models {R : Type} (train_one : Nat → String → Except String R) :
    List (Nat × String) → Except String (List (Nat × R))
  | [] => Except.ok []
  | (userId, csvPath) :: rest =>
    match train_one userId csvPath with
    | Except.error e => Except.error e
    | Except.ok r =>
      match batch_train_models train_one rest with
      | Except.error e => Except.error e
      | Except.ok rs => Except.ok ((userId, r) :: rs)

/-- One column of the raw feature frame: its name and whether its pandas
dtype is `object` (categorical). -/
structure Col where
  name : String
  isObject : Bool
deriving DecidableEq

/-- `inference.py:72-83` (`get_feature_pipeline`): covariate columns are all
columns except `ds` and `y`; categorical (`object`-dtype) names come first,
then numeric names. -/
def get_feature_pipeline_names (cols : List Col) : List String :=
  ((cols.filter (fun c => decide (c.name ∉ (["ds", "y"] : List String)))).filter
      (fun c => c.isObject)).map Col.name ++
    ((cols.filter (fun c => decide (c.name ∉ (["ds", "y"] : List String)))).filter
      (fun c => !c.isObject)).map Col.name

/-- `inference.py:56` (`fit_prophet`): the regressors attached to the model
at fit time, `[name for name in feature_names if name not in ['ds', 'y',
'cap', 'floor']]`. -/
def fit_prophet_regressors (feature_names : List String) : List String :=
  feature_names.filter
    (fun name => decide (name ∉ (["ds", "y", "cap", "floor"] : List String)))

/-- `inference.py:90` (`infer_prophet`): the regressor columns presented at
predict time, computed by the same comprehension. -/
def infer_prophet_regressors (feature_names : List String) : List String :=
  feature_names.filter
    (fun name => decide (name ∉ (["ds", "y", "cap", "floor"] : List String)))

/-- `feats.sort_values('ds')` (`main.py:103`): a stable sort of the rows by
timestamp. -/
def sort_values (rows : List Row) : List Row :=
  List.insertionSort (fun a b => a.ds ≤ b.ds) rows

/-- The validation metrics computed at `main.py:184-186`: `val_mae` is the
mean absolute error; the code reports `val_rmse = sqrt(val_mse)` so the
embedded field holds the radicand; `val_r2 = 1 - ss_res / ss_tot` with no
guard on the denominator, so a constant validation target makes it
non-finite (`none`). -/
structure ValMetrics where
  val_mae : ℚ
  val_mse : ℚ
  val_r2 : Option ℚ

/-- `main.py:184-186`: the three validation metrics over aligned lists of
actual and predicted standardized values. -/
def val_metrics (actual preds : List ℚ) : ValMetrics :=
  { val_mae := mean ((actual.zip preds).map (fun p => |p.1 - p.2|)),
    val_mse := mean ((actual.zip preds).map (fun p => (p.1 - p.2) ^ 2)),
    val_r2 :=
      match pythonDiv (((actual.zip preds).map (fun p => (p.1 - p.2) ^ 2)).sum)
          ((actual.map (fun a => (a - mean actual) ^ 2)).sum) with
      | none => none
      | some q => some (1 - q) }

/-- sklearn's `r2_score` (`main.py:157`): `1 - ss_res / ss_tot`, with
sklearn's documented convention for a zero-variance target (1.0 for a
perfect fit, 0.0 otherwise) rather than a division by zero. -/
def r2_score (actual preds : List ℚ) : ℚ :=
  if (actual.map (fun a => (a - mean actual) ^ 2)).sum = 0 then
    (if ((actual.zip preds).map (fun p => (p.1 - p.2) ^ 2)).sum = 0 then 1 else 0)
  else
    1 - ((actual.zip preds).map (fun p => (p.1 - p.2) ^ 2)).sum /
      (actual.map (fun a => (a - mean actual) ^ 2)).sum

/-- sklearn's `accuracy_score` over rounded values (`main.py:158`): the
fraction of rows whose actual and predicted values agree after rounding. -/
def accuracy_score (actual preds : List ℚ) : ℚ :=
  (((actual.zip preds).filter
      (fun p => roundHalfEven p.1 == roundHalfEven p.2)).length : ℚ) /
    (actual.length : ℚ)

/-- The metrics dictionary returned by `main.py:_train_prophet`: the four
training metrics are always present (`train_rmse` is reported as the square
root of the embedded `train_mse`); the validation entries are present exactly
when the code's `if val_df is not None and len(val_df) > 0` branch runs,
modelled by the `Option`. -/
structure TrainMetrics where
  accuracy : ℚ
  train_mae : ℚ
  train_mse : ℚ
  train_r2 : ℚ
  val : Option ValMetrics

/-- `main.py:100-195` (`_train_prophet`), restricted to what the claims are
about: the rows are sorted by `ds`, split by
`max(1, int(n * train_frac))`, train metrics are computed on the training
partition, and validation metrics are computed and added only when the
validation partition exists and is non-empty.  The fitted Prophet model's
point forecast is abstracted as the function `pred` from a row to its
`yhat`; the rows carry the standardized target `y` that `extract_features`
attaches upstream (`_json_to_features` always supplies a `y` column, so the
guarded in-function standardization at `main.py:108-114` is skipped). -/
def _train_prophet (rows : List Row) (pred : Row → ℚ) (train_frac : ℚ) :
    TrainMetrics :=
  { accuracy := accuracy_score
      ((train_val_split (sort_values rows) train_frac).1.map Row.y)
      ((train_val_split (sort_values rows) train_frac).1.map pred),
    train_mae := mean
      ((((train_val_split (sort_values rows) train_frac).1.map Row.y).zip
        ((train_val_split (sort_values rows) train_frac).1.map pred)).map
        (fun p => |p.1 - p.2|)),
    train_mse := mean
      ((((train_val_split (sort_values rows) train_frac).1.map Row.y).zip
        ((train_val_split (sort_values rows) train_frac).1.map pred)).map
        (fun p => (p.1 - p.2) ^ 2)),
    train_r2 := r2_score
      ((train_val_split (sort_values rows) train_frac).1.map Row.y)
      ((train_val_split (sort_values rows) train_frac).1.map pred),
    val := Option.bind (train_val_split (sort_values rows) train_frac).2
      (fun v => if 0 < v.length then
        some (val_metrics (v.map Row.y) (v.map pred)) else none) }

/-- `main.py:223-227` (`train_endpoint`): the `"validation"` field of the
response is the rounded validation metrics when `val_mae` is among the
computed metrics, and JSON `null` (`none`) otherwise. -/
def train_endpoint_validation (metrics : TrainMetrics) : Option (ℚ × ℚ × Option ℚ) :=
  metrics.val.map (fun v => (round4 v.val_mae, round4 v.val_mse, v.val_r2.map round4))

/-- Three feature rows, sorted by `ds`, whose tail after the
`train_frac = 1/3` split is non-empty. -/
def rows7 : List Row := [⟨1, 0⟩, ⟨2, 1⟩, ⟨3, 0⟩]

/-- Three feature rows whose validation slice under `train_frac = 1/3` has a
constant standardized target `y = 1/2`. -/
def rows6 : List Row := [⟨1, 0⟩, ⟨2, 1/2⟩, ⟨3, 1/2⟩]

/-! ## Theorems -/

/-- Half-even rounding moves a value by at most one half. -/
theorem roundHalfEven_sub_abs (q : ℚ) : |(roundHalfEven q : ℚ) - q| ≤ 1 / 2 := by
  have h1 := Int.floor_le q
  have h2 := Int.lt_floor_add_one q
  unfold roundHalfEven
  split_ifs with ha hb hc <;>
  · push_neg at *
    rw [abs_sub_le_iff]
    push_cast
    constructor <;> linarith

/-- Rounding to the nearest multiple of ten moves a value by at most five. -/
theorem pyRound10_sub_abs (v : ℚ) : |pyRound10 v - v| ≤ 5 := by
  have h := roundHalfEven_sub_abs (v / 10)
  unfold pyRound10
  rw [abs_le] at *
  constructor <;> linarith [h.1, h.2]

/-- **C1.** Standardization round-trip: for any income `x` and any
`(mu, sigma)` with a non-zero `sigma` (every `MuSigma` the guarded pipeline
produces has `sigma ≠ 0`), standardizing and then applying
`income_from_standardized` reproduces `x` within the rounding tolerance of
five income units. -/
theorem standardize_inverse_roundtrip (x mu sigma : ℚ) (h : sigma ≠ 0) :
    ∃ y, standardize x mu sigma = some y ∧
      |income_from_standardized y mu sigma - x| ≤ 5 := by
  refine ⟨(x - mu) / sigma, ?_, ?_⟩
  · unfold standardize pythonDiv
    rw [if_neg h]
  · have hx : (x - mu) / sigma * sigma + mu = x := by
      field_simp
    show |pyRound10 ((x - mu) / sigma * sigma + mu) - x| ≤ 5
    rw [hx]
    exact pyRound10_sub_abs x

/-- Witness for C1 at `x = 996`, `mu = 0`, `sigma = 2`. -/
theorem standardize_inverse_roundtrip_check :
    ((2 : ℚ) ≠ 0) ∧
      ∃ y, standardize 996 0 2 = some y ∧
        |income_from_standardized y 0 2 - 996| ≤ 5 :=
  ⟨by norm_num, standardize_inverse_roundtrip 996 0 2 (by norm_num)⟩

/-- **C9.** `income_from_standardized` returns `y * sigma + mu` rounded to the
nearest multiple of ten: its output is always an integer multiple of ten, and
it differs from the exact inverse `y * sigma + mu` by at most five income
units. -/
theorem income_from_standardized_tens (y mu sigma : ℚ) :
    (∃ k : ℤ, income_from_standardized y mu sigma = 10 * (k : ℚ)) ∧
      |income_from_standardized y mu sigma - (y * sigma + mu)| ≤ 5 :=
  ⟨⟨roundHalfEven ((y * sigma + mu) / 10), rfl⟩, pyRound10_sub_abs _⟩

/-- **C4, counterexample.** With three rows and train fraction
`f = 1 - test_size = 1/2`, the claim predicts a training partition of
`ceil(3 * 1/2) = 2` rows, but `time_series_split` truncates (`int(...)`)
and yields only one training row. -/
theorem time_series_split_not_ceil :
    (time_series_split rows3 (1 / 2)).1.length = 1 ∧
      (⌈((rows3.length : ℚ)) * (1 - 1 / 2)⌉).toNat = 2 ∧
      (time_series_split rows3 (1 / 2)).1.length ≠
        (⌈((rows3.length : ℚ)) * (1 - 1 / 2)⌉).toNat := by
  have h1 : (time_series_split rows3 (1 / 2)).1.length = 1 := by
    norm_num [time_series_split, pyInt, rows3]
  have h2 : (⌈((rows3.length : ℚ)) * (1 - 1 / 2)⌉).toNat = 2 := by
    have hc : ⌈((rows3.length : ℚ)) * (1 - 1 / 2)⌉ = 2 := by
      rw [Int.ceil_eq_iff]
      norm_num [rows3]
    rw [hc]
    rfl
  refine ⟨h1, h2, ?_⟩
  rw [h1, h2]
  omega

/-- **C4, amended.** For a row sequence sorted by `ds` and a test fraction
with `0 ≤ test_size ≤ 1` (train fraction `f = 1 - test_size` in `[0, 1]`),
`time_series_split` yields the first `floor(n * f)` rows (Python `int`
truncation) as the training partition and the remainder as the validation
partition; the partitions are exhaustive and every training row precedes
every validation row in time. -/
theorem time_series_split_floor (rows : List Row) (ts : ℚ)
    (h0 : 0 ≤ ts) (h1 : ts ≤ 1)
    (hs : rows.Pairwise (fun a b => a.ds ≤ b.ds)) :
    (time_series_split rows ts).1 ++ (time_series_split rows ts).2 = rows ∧
      (time_series_split rows ts).1.length =
        (⌊(rows.length : ℚ) * (1 - ts)⌋).toNat ∧
      ∀ a ∈ (time_series_split rows ts).1,
        ∀ b ∈ (time_series_split rows ts).2, a.ds ≤ b.ds := by
  have hnn : (0 : ℚ) ≤ (rows.length : ℚ) * (1 - ts) := by
    have : (0 : ℚ) ≤ 1 - ts := by linarith
    positivity
  have hpy : pyInt ((rows.length : ℚ) * (1 - ts)) = ⌊(rows.length : ℚ) * (1 - ts)⌋ := by
    unfold pyInt
    rw [if_neg (not_lt.mpr hnn)]
  have hle : (⌊(rows.length : ℚ) * (1 - ts)⌋).toNat ≤ rows.length := by
    have hmul : (rows.length : ℚ) * (1 - ts) ≤ (rows.length : ℚ) := by
      nlinarith [Nat.cast_nonneg (α := ℚ) rows.length]
    have : ⌊(rows.length : ℚ) * (1 - ts)⌋ ≤ ⌊((rows.length : ℕ) : ℚ)⌋ :=
      Int.floor_le_floor hmul
    rw [Int.floor_natCast] at this
    omega
  refine ⟨List.take_append_drop _ _, ?_, ?_⟩
  · show (rows.take ((pyInt ((rows.length : ℚ) * (1 - ts))).toNat)).length = _
    rw [hpy, List.length_take, min_eq_left hle]
  · intro a ha b hb
    have hsplit : rows.take ((pyInt ((rows.length : ℚ) * (1 - ts))).toNat) ++
        rows.drop ((pyInt ((rows.length : ℚ) * (1 - ts))).toNat) = rows :=
      List.take_append_drop _ _
    have hs2 : (rows.take ((pyInt ((rows.length : ℚ) * (1 - ts))).toNat) ++
        rows.drop ((pyInt ((rows.length : ℚ) * (1 - ts))).toNat)).Pairwise
        (fun a b => a.ds ≤ b.ds) := by
      rw [hsplit]; exact hs
    exact (List.pairwise_append.mp hs2).2.2 a ha b hb

/-- Witness for the amended C4 at three concrete rows and `test_size = 1/2`. -/
theorem time_series_split_floor_check :
    (0 : ℚ) ≤ 1 / 2 ∧ (1 / 2 : ℚ) ≤ 1 ∧
      rows3.Pairwise (fun a b => a.ds ≤ b.ds) ∧
      (time_series_split rows3 (1 / 2)).1 ++ (time_series_split rows3 (1 / 2)).2 = rows3 ∧
      (time_series_split rows3 (1 / 2)).1.length =
        (⌊(rows3.length : ℚ) * (1 - 1 / 2)⌋).toNat := by
  have hp : rows3.Pairwise (fun a b => a.ds ≤ b.ds) := by
    norm_num [rows3, List.pairwise_cons]
  have h := time_series_split_floor rows3 (1 / 2) (by norm_num) (by norm_num) hp
  exact ⟨by norm_num, by norm_num, hp, h.1, h.2.1⟩

/-- **C10.** For a non-empty feature frame and a training fraction in
`(0, 1]`, the split used by `train_prophet` / `retrain_prophet` /
`_train_prophet` takes `max(1, floor(n * train_frac))` training rows — so the
training partition is never empty — and the validation partition receives
exactly the remaining `n - max(1, floor(n * train_frac))` rows. -/
theorem train_val_split_min_one (α : Type) (rows : List α) (f : ℚ)
    (hne : rows ≠ []) (h0 : 0 < f) (h1 : f ≤ 1) :
    1 ≤ (train_val_split rows f).1.length ∧
      (train_val_split rows f).1.length = (max 1 ⌊(rows.length : ℚ) * f⌋).toNat ∧
      ((train_val_split rows f).2.getD []).length =
        rows.length - (max 1 ⌊(rows.length : ℚ) * f⌋).toNat := by
  have hn1 : 1 ≤ rows.length := List.length_pos.mpr hne
  have hnn : (0 : ℚ) ≤ (rows.length : ℚ) * f := by positivity
  have hpy : pyInt ((rows.length : ℚ) * f) = ⌊(rows.length : ℚ) * f⌋ := by
    unfold pyInt
    rw [if_neg (not_lt.mpr hnn)]
  have hfle : ⌊(rows.length : ℚ) * f⌋ ≤ (rows.length : ℤ) := by
    have hmul : (rows.length : ℚ) * f ≤ (rows.length : ℚ) := by
      nlinarith [Nat.cast_nonneg (α := ℚ) rows.length]
    have := Int.floor_le_floor hmul
    rwa [Int.floor_natCast] at this
  have hle : (max 1 ⌊(rows.length : ℚ) * f⌋).toNat ≤ rows.length := by omega
  have hge : 1 ≤ (max 1 ⌊(rows.length : ℚ) * f⌋).toNat := by omega
  have htr : (train_val_split rows f).1.length = (max 1 ⌊(rows.length : ℚ) * f⌋).toNat := by
    show (rows.take ((max 1 (pyInt ((rows.length : ℚ) * f))).toNat)).length = _
    rw [hpy, List.length_take, min_eq_left hle]
  refine ⟨by omega, htr, ?_⟩
  show ((if (max 1 (pyInt ((rows.length : ℚ) * f))).toNat < rows.length then
      some (rows.drop ((max 1 (pyInt ((rows.length : ℚ) * f))).toNat))
    else none).getD []).length = _
  rw [hpy]
  by_cases hlt : (max 1 ⌊(rows.length : ℚ) * f⌋).toNat < rows.length
  · rw [if_pos hlt]
    simp [List.length_drop]
  · rw [if_neg hlt]
    simp only [Option.getD_none, List.length_nil]
    omega

/-- Witness for C10 at three concrete rows and `train_frac = 1/2`. -/
theorem train_val_split_min_one_check :
    ([5, 6, 7] : List ℚ) ≠ [] ∧ (0 : ℚ) < 1 / 2 ∧ (1 / 2 : ℚ) ≤ 1 ∧
      1 ≤ (train_val_split ([5, 6, 7] : List ℚ) (1 / 2)).1.length ∧
      (train_val_split ([5, 6, 7] : List ℚ) (1 / 2)).1.length =
        (max 1 ⌊((([5, 6, 7] : List ℚ).length : ℚ)) * (1 / 2)⌋).toNat ∧
      ((train_val_split ([5, 6, 7] : List ℚ) (1 / 2)).2.getD []).length =
        ([5, 6, 7] : List ℚ).length -
          (max 1 ⌊((([5, 6, 7] : List ℚ).length : ℚ)) * (1 / 2)⌋).toNat := by
  have h := train_val_split_min_one ℚ [5, 6, 7] (1 / 2) (by simp) (by norm_num) (by norm_num)
  exact ⟨by simp, by norm_num, by norm_num, h.1, h.2.1, h.2.2⟩

/-- **C5.** On a constant `Income_Total` column the population variance is
zero, hence the `sigma = std(ddof=0)` of `extract_features` is zero — and
`featureExtraction.py:22` divides by it with no floor substitution, so the
standardized `y` is non-finite for every row.  The floor `... or 1.0` exists
only in `train_prophet` / `retrain_prophet` / `_train_prophet`
(`pyOrFloat 0 = 1`), whose own `y`-computation is skipped whenever
`extract_features` has already added a `y` column. -/
theorem extract_features_zero_sigma :
    popVar [1000, 1000, 1000] = 0 ∧
      extract_features_y [1000, 1000, 1000] 0 1000 = none ∧
      pyOrFloat 0 = 1 := by
  refine ⟨?_, ?_, ?_⟩
  · norm_num [popVar, mean]
  · norm_num [extract_features_y, standardize, pythonDiv]
  · norm_num [pyOrFloat]

/-- **C2.** Persistence does not round-trip: a load with an empty store
raises the builtin `FileNotFoundError` (not an `ArtifactNotFoundError`),
and even after a successful save for user 42 the retrain-side load still
fails, because the save path (`modelUser_42.json`) and the load path
(`model_user_42.json`) differ; the serialized bytes are recovered only
when the same path the save used is read back. -/
theorem artifact_path_mismatch :
    retrain_prophet_load [] 42 = Except.error "FileNotFoundError" ∧
      retrain_prophet_load (train_prophet_save [] 42 "serialized model") 42 =
        Except.error "FileNotFoundError" ∧
      model_save_path 42 ≠ retrain_model_path 42 ∧
      fileRead (train_prophet_save [] 42 "serialized model") (model_save_path 42) =
        Except.ok "serialized model" :=
  ⟨rfl, rfl, by decide, rfl⟩

/-- **C3.** A `ValidationError` for user 2 aborts the batch instead of being
captured in user 2's own result record: the batch evaluates to the raised
error, so nothing is returned — neither the completed result for user 1 nor
a failure record for user 2. -/
theorem batch_train_abort :
    batch_train_models
        (fun userId _ => if userId = 2 then Except.error "ValidationError"
          else Except.ok (0 : Nat))
        [(1, "path_a"), (2, "path_b")] =
      Except.error "ValidationError" := rfl

/-- Membership in the ordered feature-name list built by
`get_feature_pipeline`: a name occurs exactly when some column carries it and
it is neither `ds` nor `y`. -/
theorem mem_get_feature_pipeline_names (cols : List Col) (n : String) :
    n ∈ get_feature_pipeline_names cols ↔
      ((∃ c ∈ cols, c.name = n) ∧ n ∉ (["ds", "y"] : List String)) := by
  simp only [get_feature_pipeline_names, List.mem_append, List.mem_map,
    List.mem_filter, decide_eq_true_eq]
  constructor
  · rintro (⟨c, ⟨⟨hc, hn⟩, _⟩, rfl⟩ | ⟨c, ⟨⟨hc, hn⟩, _⟩, rfl⟩) <;>
      exact ⟨⟨c, hc, rfl⟩, hn⟩
  · rintro ⟨⟨c, hc, rfl⟩, hn⟩
    by_cases hobj : c.isObject = true
    · exact Or.inl ⟨c, ⟨⟨hc, hn⟩, hobj⟩, rfl⟩
    · exact Or.inr ⟨c, ⟨⟨hc, hn⟩, by simp [hobj]⟩, rfl⟩

/-- **C8.** At fit time and predict time the regressor list is identical,
never contains the reserved names `cap` or `floor` (even when columns of
those names are present in the data), and as a set is exactly the encoded
feature columns minus `ds`, `y`, `cap`, `floor`. -/
theorem regressors_exclude_reserved (cols : List Col) :
    fit_prophet_regressors (get_feature_pipeline_names cols) =
        infer_prophet_regressors (get_feature_pipeline_names cols) ∧
      "cap" ∉ fit_prophet_regressors (get_feature_pipeline_names cols) ∧
      "floor" ∉ fit_prophet_regressors (get_feature_pipeline_names cols) ∧
      ∀ n, n ∈ fit_prophet_regressors (get_feature_pipeline_names cols) ↔
        (n ∈ cols.map Col.name ∧ n ∉ (["ds", "y", "cap", "floor"] : List String)) := by
  refine ⟨rfl, ?_, ?_, ?_⟩
  · simp [fit_prophet_regressors, List.mem_filter]
  · simp [fit_prophet_regressors, List.mem_filter]
  · intro n
    rw [fit_prophet_regressors, List.mem_filter, mem_get_feature_pipeline_names]
    simp only [List.mem_map, decide_eq_true_eq, List.mem_cons, List.not_mem_nil]
    constructor
    · rintro ⟨⟨⟨c, hc, rfl⟩, _⟩, hres⟩
      exact ⟨⟨c, hc, rfl⟩, hres⟩
    · rintro ⟨⟨c, hc, rfl⟩, hres⟩
      exact ⟨⟨⟨c, hc, rfl⟩, by tauto⟩, hres⟩

/-- With `train_frac = 1` the validation partition of the
`max(1, int(n * f))` split is always `None`. -/
theorem train_val_split_frac_one {α : Type} (l : List α) :
    (train_val_split l 1).2 = none := by
  have h1 : pyInt ((l.length : ℚ) * 1) = (l.length : ℤ) := by
    unfold pyInt
    rw [mul_one, if_neg (not_lt.mpr (by positivity)), Int.floor_natCast]
  show (if (max 1 (pyInt ((l.length : ℚ) * 1))).toNat < l.length then
      some (l.drop ((max 1 (pyInt ((l.length : ℚ) * 1))).toNat))
    else none) = none
  rw [h1, if_neg (by omega)]

/-- A validation partition the split actually returns is non-empty. -/
theorem train_val_split_val_pos {α : Type} (l : List α) (f : ℚ) (v : List α)
    (hv : (train_val_split l f).2 = some v) : 0 < v.length := by
  unfold train_val_split at hv
  dsimp only at hv
  split_ifs at hv with hc
  injection hv with hveq
  rw [← hveq]
  simp only [List.length_drop]
  omega

/-- **C7.** With `train_frac = 1` the validation partition is empty, the
validation metrics are absent from the metrics dictionary (`none`, never
zero), and the endpoint reports `"validation": null`; whenever the split
produces a (necessarily non-empty) validation partition, the validation MAE,
RMSE and R² are computed and included in the result. -/
theorem val_metrics_presence (rows : List Row) (pred : Row → ℚ) (f : ℚ) :
    (_train_prophet rows pred 1).val = none ∧
      train_endpoint_validation (_train_prophet rows pred 1) = none ∧
      ∀ v, (train_val_split (sort_values rows) f).2 = some v →
        (_train_prophet rows pred f).val =
          some (val_metrics (v.map Row.y) (v.map pred)) := by
  have h1 : (_train_prophet rows pred 1).val = none := by
    show Option.bind (train_val_split (sort_values rows) 1).2 _ = none
    rw [train_val_split_frac_one]
    rfl
  refine ⟨h1, ?_, ?_⟩
  · unfold train_endpoint_validation
    rw [h1]
    rfl
  · intro v hv
    have hlen := train_val_split_val_pos (sort_values rows) f v hv
    show Option.bind (train_val_split (sort_values rows) f).2 _ = _
    rw [hv, Option.some_bind, if_pos hlen]

/-- Witness for C7: at `rows7` the `train_frac = 1` run has no validation
block while the `train_frac = 1/3` run includes the computed validation
metrics for the two held-out rows. -/
theorem val_metrics_presence_check :
    (_train_prophet rows7 Row.y 1).val = none ∧
      train_endpoint_validation (_train_prophet rows7 Row.y 1) = none ∧
      (train_val_split (sort_values rows7) (1 / 3)).2 =
        some ([⟨2, 1⟩, ⟨3, 0⟩] : List Row) ∧
      (_train_prophet rows7 Row.y (1 / 3)).val =
        some (val_metrics (([⟨2, 1⟩, ⟨3, 0⟩] : List Row).map Row.y)
          (([⟨2, 1⟩, ⟨3, 0⟩] : List Row).map Row.y)) := by
  have hsome : (train_val_split (sort_values rows7) (1 / 3)).2 =
      some ([⟨2, 1⟩, ⟨3, 0⟩] : List Row) := by
    norm_num [sort_values, List.insertionSort, List.orderedInsert,
      train_val_split, pyInt, rows7, List.take, List.drop]
  have h := val_metrics_presence rows7 Row.y (1 / 3)
  exact ⟨h.1, h.2.1, hsome, h.2.2 _ hsome⟩

/-- **C6.** On a validation slice whose target is constant (`y = 1/2` on
both held-out rows of `rows6`), the hand-written R² of `main.py:186` divides
by a zero total sum of squares: the resulting value is non-finite (`none` in
this embedding — the float code produces `-inf`/`NaN` without raising), yet
it is still stored as the `val_r2` entry of the returned metrics instead of
being reported as undefined. -/
theorem val_r2_zero_variance_included :
    ((_train_prophet rows6 Row.ds (1 / 3)).val).map ValMetrics.val_r2 =
      some none := by
  have hsome : (train_val_split (sort_values rows6) (1 / 3)).2 =
      some ([⟨2, 1 / 2⟩, ⟨3, 1 / 2⟩] : List Row) := by
    norm_num [sort_values, List.insertionSort, List.orderedInsert,
      train_val_split, pyInt, rows6, List.take, List.drop]
  have hval : (_train_prophet rows6 Row.ds (1 / 3)).val =
      some (val_metrics [1 / 2, 1 / 2] [2, 3]) := by
    show Option.bind (train_val_split (sort_values rows6) (1 / 3)).2 _ = _
    rw [hsome, Option.some_bind, if_pos (by norm_num)]
    norm_num
  rw [hval]
  norm_num [val_metrics, pythonDiv, mean, Option.map]

end Arthya
